import Mathlib

/-
Verification of the retrieval subsystem and admin frontend of the
XDU-PD25-School-Agent repository.

The frontend definitions below are shallow embeddings of the TypeScript
sources under src/ (useApi.ts, admin.tsx, the batch import hook, the
document preview modal).  The backend retrieval subsystem
(backend/app/services/retriever.py, embedding.py, utils/textsplit.py and
the debug router) is not part of the provided sources; those components
are modelled from the specification, and each such definition carries a
doc comment that starts with: Modelled from the spec.

Conventions: remote HTTP endpoints are modelled as function parameters
(oracles); a value of type Except models a request that can fail; machine
floating point numbers are modelled as rationals; JS truthiness on
numbers and strings is modelled explicitly (see jsOrNat and jsOrStr).
-/

namespace SchoolAgent

/-- A string is blank when it is empty or consists of whitespace only.
This models both the JS guard (searchQuery.trim() being falsy) and the
spec notion of an empty or whitespace-only string. -/
def isBlank (s : String) : Bool := s.toList.all (fun c => c.isWhitespace)

/-- RAGDocument from useApi.ts: distance is optional (present on search
results only). -/
structure RAGDocument where
  id : String
  text : String
  metadata : List (String × String)
  distance : Option Rat
deriving DecidableEq, Repr

/-- admin.tsx searchColumns, distance column render:
score = dist ? (1 - dist) * 100 : 0.  The JS conditional treats a
missing distance and a distance of exactly 0 the same way (both falsy). -/
def searchColumnScore (dist : Option Rat) : Rat :=
  match dist with
  | none => 0
  | some d => if d = 0 then 0 else (1 - d) * 100

/-- DocumentPreviewModal / admin.tsx preview modal similarity row,
rendered only when distance is defined: (1 - distance) * 100. -/
def previewModalScore (d : Rat) : Rat := (1 - d) * 100

/-- useApi.ts useRagSearch mutationFn: the parameter k defaults to 10
when the caller does not supply it. -/
def useRagSearch_k (k : Option Nat) : Nat := k.getD 10

/-- URL built by useRagSearch and by admin.tsx handleSearch for the
backend search endpoint; encode stands for encodeURIComponent. -/
def ragSearchUrl (encode : String → String) (q : String) (k : Nat) : String :=
  ("/api/debug/rag/search?q=") ++ encode q ++ ("&k=") ++ toString k

/-- Outcome of one handleSearch invocation: the HTTP request issued (none
when no request was made) and the results written to component state. -/
structure SearchOutcome where
  request : Option String
  results : List RAGDocument
deriving Repr

/-- admin.tsx handleSearch: a blank query clears the results and returns
before any fetch; otherwise the search endpoint is fetched with k=10.
The backend response is modelled by the oracle parameter. -/
def handleSearch (encode : String → String) (backend : String → List RAGDocument)
    (searchQuery : String) : SearchOutcome :=
  if isBlank searchQuery then { request := none, results := [] }
  else
    let url := ragSearchUrl encode searchQuery 10
    { request := some url, results := backend url }

/-- CollectionStats from useApi.ts. -/
structure CollectionStats where
  document_count : Nat
  storage_size_bytes : Nat
  storage_size_formatted : String
  embedding_dimension : Nat
  collection_name : String
  chroma_status : String
  health : String
  last_updated : String
deriving DecidableEq, Repr

/-- Shape of the /api/debug/ping_chroma response as read by the fallback
in useCollectionStats; every field may be absent. -/
structure PingChromaData where
  result_count : Option Nat
  storage_size : Option Nat
  storage_size_formatted : Option String
  model_dim : Option Nat
  collection_name : Option String
  status : Option String
  health : Option String
deriving DecidableEq, Repr

/-- JS expression x || d on an optional number: an absent value and the
number 0 are both falsy. -/
def jsOrNat (x : Option Nat) (d : Nat) : Nat :=
  match x with
  | none => d
  | some n => if n = 0 then d else n

/-- JS expression x || d on an optional string: an absent value and the
empty string are both falsy. -/
def jsOrStr (x : Option String) (d : String) : String :=
  match x with
  | none => d
  | some s => if s = ("") then d else s

/-- useApi.ts useCollectionStats queryFn: fetch /api/debug/stats; on any
failure fall back to /api/debug/ping_chroma and assemble a CollectionStats
value with defaulted fields; the fallback failure propagates.  The two
fetches are modelled by the two Except parameters, and the current
timestamp by the parameter now. -/
def useCollectionStats_queryFn (statsResp : Except String CollectionStats)
    (pingResp : Except String PingChromaData) (now : String) :
    Except String CollectionStats :=
  match statsResp with
  | .ok s => .ok s
  | .error _ =>
    match pingResp with
    | .error e => .error e
    | .ok p =>
      .ok {
        document_count := jsOrNat p.result_count 0
        storage_size_bytes := jsOrNat p.storage_size 0
        storage_size_formatted := jsOrStr p.storage_size_formatted ("0 B")
        embedding_dimension := jsOrNat p.model_dim 1024
        collection_name := jsOrStr p.collection_name ("campus_acts")
        chroma_status := if p.status = some ("ok") then ("ok") else ("error")
        health := jsOrStr p.health ("degraded")
        last_updated := now }

/-- Ingestion document shape: id, text, metadata. -/
structure IngestDoc where
  id : String
  text : String
  metadata : List (String × String)
deriving DecidableEq, Repr

inductive ImportStatus where
  | idle
  | importing
  | success
  | error
deriving DecidableEq, Repr

/-- ImportState from the batch import hook. -/
structure ImportState where
  status : ImportStatus
  progress : Nat
  total : Nat
  imported : Nat
  skipped : Nat
  error : Option String
deriving DecidableEq, Repr

/-- ImportConfig from the batch import hook. -/
structure ImportConfig where
  skipDuplicates : Bool
  validateFormat : Bool
  dryRun : Bool
deriving DecidableEq, Repr

/-- BatchFileInfo from the batch import hook (preview field omitted:
purely informational). -/
structure BatchFileInfo where
  name : String
  size : Nat
  documentCount : Nat
deriving DecidableEq, Repr

/-- Body of a POST /api/debug/batch_ingest request. -/
structure BatchIngestRequest where
  documents : List IngestDoc
  skip_duplicates : Bool
deriving DecidableEq, Repr

/-- BatchIngestResponse from useApi.ts (message field omitted). -/
structure BatchIngestResponse where
  ok : Bool
  imported : Nat
  skipped : Nat
deriving DecidableEq, Repr

/-- Outcome of one startImport invocation: the batch_ingest request
issued, if any, and the final ImportState. -/
structure StartImportOutcome where
  request : Option BatchIngestRequest
  finalState : ImportState
deriving DecidableEq, Repr

/-- useBatchImport.startImport: without a selected file the state is
unchanged; in dry-run mode no request is issued and the state is set to
success with imported = parsed document count; otherwise the file content
(modelled as the outcome of JSON.parse plus the array check) is posted to
the batch_ingest endpoint (modelled by the oracle parameter backend). -/
def startImport (file : Option (Except String (List IngestDoc)))
    (fileInfo : Option BatchFileInfo) (config : ImportConfig)
    (prev : ImportState)
    (backend : BatchIngestRequest → Except String BatchIngestResponse) :
    StartImportOutcome :=
  match file, fileInfo with
  | some content, some info =>
    if config.dryRun then
      { request := none
        finalState := {
          status := .success
          progress := info.documentCount
          total := info.documentCount
          imported := info.documentCount
          skipped := 0
          error := none } }
    else
      let importing : ImportState := {
        status := .importing
        progress := 0
        total := info.documentCount
        imported := 0
        skipped := 0
        error := none }
      match content with
      | .error e =>
        { request := none
          finalState := { importing with status := .error, error := some e } }
      | .ok docs =>
        let req : BatchIngestRequest := ⟨docs, config.skipDuplicates⟩
        match backend req with
        | .ok result =>
          { request := some req
            finalState := {
              status := .success
              progress := info.documentCount
              total := info.documentCount
              imported := result.imported
              skipped := result.skipped
              error := none } }
        | .error e =>
          { request := some req
            finalState := { importing with status := .error, error := some e } }
  | _, _ => { request := none, finalState := prev }

/-- Modelled from the spec: zero vector of the cached embedding dimension
(section 4.2); backend/app/services/embedding.py is not among the provided
sources. -/
def zeroVector (dim : Nat) : List Rat := List.replicate dim 0

/-- Modelled from the spec: the batch actually sent to the remote
embedding API, with empty and whitespace-only strings pre-filtered
(section 4.2). -/
def apiBatch (texts : List String) : List String :=
  texts.filter (fun t => !(isBlank t))

/-- Modelled from the spec: re-insert a zero vector of the cached
dimension at every blank position so that positional alignment between
inputs and outputs is preserved; if the API returned fewer vectors than
requested the remaining positions degrade to zero vectors as well
(section 4.2 zero-vector fallback). -/
def reinsertZeros (dim : Nat) : List String → List (List Rat) → List (List Rat)
  | [], _ => []
  | t :: ts, vs =>
    if isBlank t then zeroVector dim :: reinsertZeros dim ts vs
    else
      match vs with
      | v :: vs2 => v :: reinsertZeros dim ts vs2
      | [] => zeroVector dim :: reinsertZeros dim ts []

/-- Modelled from the spec: Embedder.embed of the Embedding Client
(section 4.2; backend/app/services/embedding.py is not among the provided
sources).  The remote API call is the oracle parameter api and dim is the
cached dimension. -/
def embed (api : List String → List (List Rat)) (dim : Nat)
    (texts : List String) : List (List Rat) :=
  reinsertZeros dim texts (api (apiBatch texts))

/-- Modelled from the spec: the lookback used when preferring a
whitespace break before the hard cutoff (a small lookback window,
section 4.1). -/
def chunkLookback : Nat := 20

/-- Modelled from the spec: cut position for the next chunk, at most
maxChars; a whitespace boundary within the lookback window before the
hard cutoff is preferred, falling back to the hard cutoff (section 4.1). -/
def boundaryCut (cs : List Char) (maxChars : Nat) : Nat :=
  match ((cs.take maxChars).reverse).findIdx? (fun c => c.isWhitespace) with
  | some r => if r < chunkLookback then maxChars - r else maxChars
  | none => maxChars

/-- Modelled from the spec: windowed splitting over the character list;
fuel bounds the recursion by the input length (section 4.1). -/
def chunkAux (maxChars overlap : Nat) : Nat → List Char → List (List Char)
  | 0, _ => []
  | fuel + 1, cs =>
    if cs.isEmpty then []
    else if cs.length ≤ maxChars then [cs]
    else
      let cut := boundaryCut cs maxChars
      cs.take cut :: chunkAux maxChars overlap fuel (cs.drop (cut - overlap))

/-- Modelled from the spec: chunk(text, max_chars, overlap_chars) of the
Text Chunker (section 4.1; backend/app/utils/textsplit.py is not among
the provided sources).  Empty or whitespace-only text yields zero chunks;
the final chunk may be shorter than max_chars. -/
def chunk (text : String) (maxChars overlap : Nat) : List String :=
  if isBlank text then []
  else (chunkAux maxChars overlap text.toList.length text.toList).map
    (fun l => String.mk l)

/-- A stored (id, vector, text, metadata) tuple of the Vector Store. -/
structure StoredDoc where
  id : String
  embedding : List Rat
  text : String
  metadata : List (String × String)
deriving DecidableEq, Repr

/-- The collection: one dimension bound to a list of stored documents in
insertion order. -/
structure Collection where
  dim : Nat
  docs : List StoredDoc
deriving DecidableEq, Repr

/-- Existence check by id used by the skip_duplicates path. -/
def Collection.existsId (c : Collection) (i : String) : Bool :=
  c.docs.any (fun d => d.id == i)

/-- Write of a dimension-compatible document: an existing id is
overwritten in place, a new id is appended in insertion order. -/
def upsertInto (c : Collection) (i : String) (v : List Rat) (t : String)
    (m : List (String × String)) : Collection :=
  if c.existsId i then
    { c with docs := c.docs.map (fun d => if d.id == i then ⟨i, v, t, m⟩ else d) }
  else
    { c with docs := c.docs ++ [⟨i, v, t, m⟩] }

/-- Modelled from the spec: ChromaRetriever.upsert of the Vector Store
(section 4.3; backend/app/services/retriever.py is not among the provided
sources).  A vector whose length differs from the recorded dimension
triggers the destructive recreate: the collection is replaced by an empty
one with the new dimension before the write proceeds.  An existing id is
overwritten in place; a new id is appended. -/
def Collection.upsert (c : Collection) (i : String) (v : List Rat)
    (t : String) (m : List (String × String)) : Collection :=
  upsertInto (if v.length = c.dim then c else { dim := v.length, docs := [] })
    i v t m

/-- Modelled from the spec: get(id), returning the stored document or
not-found (section 4.3). -/
def Collection.get (c : Collection) (i : String) : Option StoredDoc :=
  c.docs.find? (fun d => d.id == i)

/-- Stats surface of the Vector Store (section 4.3); the storage size is
modelled as the total stored text length. -/
structure VSStats where
  document_count : Nat
  storage_size : Nat
  embedding_dimension : Nat
  health : String
deriving DecidableEq, Repr

/-- Modelled from the spec: stats() of the Vector Store (section 4.3). -/
def Collection.stats (c : Collection) : VSStats :=
  { document_count := c.docs.length
    storage_size := (c.docs.map (fun d => d.text.length)).sum
    embedding_dimension := c.dim
    health := ("ok") }

/-- Search Result of the data model: text, metadata and a non-negative
dissimilarity distance. -/
structure SearchResult where
  text : String
  metadata : List (String × String)
  distance : Rat
deriving DecidableEq, Repr

/-- Squared euclidean distance, the dissimilarity score of the model. -/
def dist2 (u v : List Rat) : Rat :=
  (List.zipWith (fun a b => (a - b) * (a - b)) u v).sum

/-- Modelled from the spec: query(vector, k) of the Vector Store, ranked
ascending by distance, at most k results (section 4.3). -/
def Collection.query (c : Collection) (qv : List Rat) (k : Nat) :
    List SearchResult :=
  ((c.docs.map (fun d =>
      SearchResult.mk d.text d.metadata (dist2 qv d.embedding))).insertionSort
    (fun a b => a.distance ≤ b.distance)).take k

/-- Modelled from the spec: per-item validation of batch ingestion
(section 7b): an empty id or an empty or whitespace-only text is a
malformed document, rejected per item. -/
def docValid (d : IngestDoc) : Bool :=
  !(d.id == ("")) && !(isBlank d.text)

/-- Modelled from the spec: ingest(document) of the Retrieval Service
(section 4.4): chunk the text, embed each chunk and upsert, keyed by the
id for a single-chunk document and by id#index for a multi-chunk one.
The embedder is the oracle parameter. -/
def ingestDoc (embedder : String → List Rat) (maxChars overlap : Nat)
    (c : Collection) (d : IngestDoc) : Collection :=
  match chunk d.text maxChars overlap with
  | [t] => c.upsert d.id (embedder t) t d.metadata
  | ts =>
    (ts.enum).foldl
      (fun acc p =>
        acc.upsert (d.id ++ ("#") ++ toString p.1) (embedder p.2) p.2 d.metadata)
      c

/-- Result of batch_ingest: counts, the per-item error descriptions and,
as an explicit call trace of the embedding client, the list of chunk
texts that were sent to the embedder. -/
structure BatchResult where
  imported : Nat
  skipped : Nat
  errors : List String
  embedded : List String
deriving DecidableEq, Repr

/-- Modelled from the spec: batch_ingest(documents, skip_duplicates) of
the Retrieval Service (section 4.4; the debug router and retriever are
not among the provided sources).  With skip_duplicates set, an item whose
id already exists in the store is counted as skipped and its text is not
embedded; a malformed item is recorded as a per-item error and processing
continues; every other item is ingested and counted as imported. -/
def batch_ingest (embedder : String → List Rat) (maxChars overlap : Nat) :
    Collection → List IngestDoc → Bool → Collection × BatchResult
  | c, [], _ => (c, ⟨0, 0, [], []⟩)
  | c, d :: rest, skipDup =>
    if skipDup && c.existsId d.id then
      let out := batch_ingest embedder maxChars overlap c rest skipDup
      (out.1, { out.2 with skipped := out.2.skipped + 1 })
    else if docValid d then
      let out := batch_ingest embedder maxChars overlap
        (ingestDoc embedder maxChars overlap c d) rest skipDup
      (out.1, { out.2 with
        imported := out.2.imported + 1
        embedded := chunk d.text maxChars overlap ++ out.2.embedded })
    else
      let out := batch_ingest embedder maxChars overlap c rest skipDup
      (out.1, { out.2 with errors := d.id :: out.2.errors })

/-- C2: for every search invocation whose query text is empty or
whitespace-only, handleSearch returns an empty result list and issues no
request to the backend search endpoint, so no embedding call happens for
it either. -/
theorem C2_blank_query_no_request (encode : String → String)
    (backend : String → List RAGDocument) (q : String)
    (hq : isBlank q = true) :
    handleSearch encode backend q = { request := none, results := [] } := by
  simp [handleSearch, hq]

theorem C2_blank_query_no_request_witness :
    isBlank ("   ") = true ∧
    handleSearch (fun s => s) (fun _ => []) ("   ") =
      { request := none, results := [] } :=
  ⟨by decide, C2_blank_query_no_request _ _ _ (by decide)⟩

/-- C3, counterexample: the claim says the requested result count k
defaults to 5, but useRagSearch defaults it to 10 when the caller omits
it. -/
theorem C3_default_k_counterexample : ¬ (useRagSearch_k none = 5) := by
  decide

/-- C3, amended: for every search invocation where the caller does not
supply k, the number of requested results defaults to 10, and the admin
search UI always requests the search endpoint with k=10. -/
theorem C3_default_k_amended :
    useRagSearch_k none = 10 ∧
    (∀ n, useRagSearch_k (some n) = n) ∧
    (∀ (encode : String → String) (backend : String → List RAGDocument)
      (q : String), isBlank q = false →
      (handleSearch encode backend q).request =
        some (ragSearchUrl encode q 10)) := by
  refine ⟨rfl, fun n => rfl, fun encode backend q hq => ?_⟩
  simp [handleSearch, hq]

theorem C3_default_k_amended_witness :
    useRagSearch_k none = 10 ∧
    (handleSearch (fun s => s) (fun _ => []) ("hi")).request =
      some (ragSearchUrl (fun s => s) ("hi") 10) :=
  ⟨C3_default_k_amended.1,
    C3_default_k_amended.2.2 (fun s => s) (fun _ => []) ("hi") (by decide)⟩

/-- C8: for every selected batch-import file, when the dry-run option is
enabled startImport issues no HTTP request and sets the import state to
success with imported equal to the parsed document count of the file,
skipped 0 and no error. -/
theorem C8_dry_run (content : Except String (List IngestDoc))
    (info : BatchFileInfo) (config : ImportConfig) (prev : ImportState)
    (backend : BatchIngestRequest → Except String BatchIngestResponse)
    (h : config.dryRun = true) :
    startImport (some content) (some info) config prev backend =
      { request := none
        finalState := {
          status := .success
          progress := info.documentCount
          total := info.documentCount
          imported := info.documentCount
          skipped := 0
          error := none } } := by
  simp [startImport, h]

theorem C8_dry_run_witness :
    startImport (some (.ok [])) (some ⟨("a.json"), 10, 3⟩)
      ⟨true, true, true⟩ ⟨.idle, 0, 0, 0, 0, none⟩ (fun _ => .error ("no"))
      = { request := none
          finalState := {
            status := .success
            progress := 3
            total := 3
            imported := 3
            skipped := 0
            error := none } } :=
  C8_dry_run (.ok []) ⟨("a.json"), 10, 3⟩ ⟨true, true, true⟩
    ⟨.idle, 0, 0, 0, 0, none⟩ (fun _ => .error ("no")) rfl

/-- C9: if the stats endpoint fails the loader falls back to the
ping_chroma endpoint; absent fields of the ping payload take the defaults
document_count 0, storage 0 bytes and "0 B", embedding_dimension 1024,
collection_name campus_acts and health degraded, and the loader itself
fails exactly when the fallback request also fails. -/
theorem C9_stats_fallback :
    (∀ (es now : String),
      useCollectionStats_queryFn (.error es)
        (.ok ⟨none, none, none, none, none, none, none⟩) now =
      .ok ⟨0, 0, ("0 B"), 1024, ("campus_acts"), ("error"), ("degraded"), now⟩) ∧
    (∀ (es ep now : String),
      useCollectionStats_queryFn (.error es) (.error ep) now = .error ep) ∧
    (∀ (s : CollectionStats) (ping : Except String PingChromaData)
      (now : String), useCollectionStats_queryFn (.ok s) ping now = .ok s) ∧
    (∀ (a : Except String CollectionStats) (b : Except String PingChromaData)
      (now e : String), useCollectionStats_queryFn a b now = .error e →
      a.isOk = false ∧ b = .error e) := by
  refine ⟨fun es now => rfl, fun es ep now => rfl, fun s ping now => rfl, ?_⟩
  intro a b now e h
  cases a with
  | ok s => simp [useCollectionStats_queryFn] at h
  | error es =>
    cases b with
    | ok p => simp [useCollectionStats_queryFn] at h
    | error ep =>
      simp [useCollectionStats_queryFn] at h
      exact ⟨rfl, by rw [h]⟩

theorem C9_stats_fallback_witness :
    useCollectionStats_queryFn (.error ("boom"))
      (.ok ⟨none, none, none, none, none, none, none⟩) ("t") =
      .ok ⟨0, 0, ("0 B"), 1024, ("campus_acts"), ("error"), ("degraded"), ("t")⟩ ∧
    ((Except.error ("boom") : Except String CollectionStats).isOk = false ∧
      (Except.error ("down") : Except String PingChromaData) = .error ("down")) :=
  ⟨C9_stats_fallback.1 ("boom") ("t"),
    C9_stats_fallback.2.2.2 (.error ("boom")) (.error ("down")) ("t") ("down")
      rfl⟩

/-- C10: the search-results table displays similarity (1 - d) * 100 for
every nonzero distance d but 0 for a distance of exactly 0 or a missing
distance, while the preview modal displays (1 - d) * 100 for every
defined distance, including 100 percent at d = 0. -/
theorem C10_similarity_display :
    (∀ d : Rat, d ≠ 0 → searchColumnScore (some d) = (1 - d) * 100) ∧
    searchColumnScore (some 0) = 0 ∧
    searchColumnScore none = 0 ∧
    (∀ d : Rat, previewModalScore d = (1 - d) * 100) ∧
    previewModalScore 0 = 100 := by
  refine ⟨fun d hd => by simp [searchColumnScore, hd],
    by simp [searchColumnScore], rfl, fun d => rfl, ?_⟩
  norm_num [previewModalScore]

theorem C10_similarity_display_witness :
    searchColumnScore (some 2) = (1 - 2) * 100 :=
  C10_similarity_display.1 2 (by norm_num)

theorem chunk_of_short (text : String) (maxChars overlap : Nat)
    (hb : isBlank text = false) (hlen : text.toList.length < maxChars) :
    chunk text maxChars overlap = [text] := by
  have hne : text.toList ≠ [] := by
    intro h
    rw [isBlank, h] at hb
    simp at hb
  have hmk : String.mk text.toList = text := by
    cases text
    rfl
  rw [chunk, if_neg (by simp [hb])]
  cases h : text.toList with
  | nil => exact absurd h hne
  | cons a l =>
    rw [h] at hlen
    rw [List.length_cons]
    rw [chunkAux]
    rw [if_neg (by simp), if_pos (Nat.le_of_lt hlen)]
    rw [List.map_singleton, ← h, hmk]

/-- C7, counterexample: the claim quantifies over every non-empty text,
but a whitespace-only text such as a single space is non-empty, shorter
than max_chars = 10 with overlap 0, and yields zero chunks rather than
one chunk equal to the input. -/
theorem C7_short_text_counterexample :
    ((" ") ≠ ("") ∧ (" " : String).toList.length < 10 ∧ (0 : Nat) < 10) ∧
    chunk (" ") 10 0 = [] ∧ ¬ (chunk (" ") 10 0 = [(" ")]) := by
  decide

/-- C7, amended: for every text that is neither empty nor
whitespace-only and whose length is shorter than max_chars (with
max_chars positive and overlap below max_chars), chunk returns exactly
one chunk equal to the input text. -/
theorem C7_short_text_single_chunk (text : String) (maxChars overlap : Nat)
    (hb : isBlank text = false) (_hmax : 0 < maxChars)
    (_hov : overlap < maxChars) (hlen : text.toList.length < maxChars) :
    chunk text maxChars overlap = [text] :=
  chunk_of_short text maxChars overlap hb hlen

theorem C7_short_text_single_chunk_witness :
    chunk ("hello") 10 2 = [("hello")] :=
  C7_short_text_single_chunk ("hello") 10 2 (by decide) (by decide)
    (by decide) (by decide)

theorem reinsertZeros_length (dim : Nat) :
    ∀ (ts : List String) (vs : List (List Rat)),
      (reinsertZeros dim ts vs).length = ts.length := by
  intro ts
  induction ts with
  | nil => intro vs; rfl
  | cons t ts ih =>
    intro vs
    cases hb : isBlank t with
    | true => simp [reinsertZeros, hb, ih]
    | false =>
      cases vs with
      | nil => simp [reinsertZeros, hb, ih]
      | cons v vs2 => simp [reinsertZeros, hb, ih]

theorem reinsertZeros_blank_pos (dim : Nat) :
    ∀ (ts : List String) (vs : List (List Rat)) (i : Nat) (t : String),
      ts[i]? = some t → isBlank t = true →
      (reinsertZeros dim ts vs)[i]? = some (zeroVector dim) := by
  intro ts
  induction ts with
  | nil => intro vs i t h _; simp at h
  | cons a ts ih =>
    intro vs i t h hb
    cases i with
    | zero =>
      simp only [List.getElem?_cons_zero, Option.some.injEq] at h
      subst h
      simp [reinsertZeros, hb]
    | succ n =>
      simp only [List.getElem?_cons_succ] at h
      cases hba : isBlank a with
      | true => simpa [reinsertZeros, hba] using ih vs n t h hb
      | false =>
        cases vs with
        | nil => simpa [reinsertZeros, hba] using ih [] n t h hb
        | cons v vs2 => simpa [reinsertZeros, hba] using ih vs2 n t h hb

/-- C6: embed of the empty list is the empty list; every blank string is
filtered out of the batch sent to the remote API and a zero vector of
the cached dimension occupies its output position; the output always has
one vector per input position; in particular embedding an empty and a
whitespace-only string yields two zero vectors of the cached dimension
whatever the API would answer. -/
theorem C6_embed_blank_filtering :
    (∀ (api : List String → List (List Rat)) (dim : Nat),
      embed api dim [] = []) ∧
    (∀ (api : List String → List (List Rat)) (dim : Nat),
      embed api dim [(""), ("  ")] = [zeroVector dim, zeroVector dim]) ∧
    (∀ (texts : List String) (t : String), t ∈ apiBatch texts →
      isBlank t = false) ∧
    (∀ (api : List String → List (List Rat)) (dim : Nat)
      (texts : List String), (embed api dim texts).length = texts.length) ∧
    (∀ (api : List String → List (List Rat)) (dim : Nat)
      (texts : List String) (i : Nat) (t : String),
      texts[i]? = some t → isBlank t = true →
      (embed api dim texts)[i]? = some (zeroVector dim)) := by
  refine ⟨fun api dim => rfl, fun api dim => rfl, ?_, ?_, ?_⟩
  · intro texts t ht
    rw [apiBatch, List.mem_filter] at ht
    simpa using ht.2
  · intro api dim texts
    exact reinsertZeros_length dim texts (api (apiBatch texts))
  · intro api dim texts i t h hb
    exact reinsertZeros_blank_pos dim texts (api (apiBatch texts)) i t h hb

theorem C6_embed_blank_filtering_witness :
    isBlank ("a") = false ∧
    (embed (fun _ => []) 2 [(""), ("x")])[0]? = some (zeroVector 2) :=
  ⟨C6_embed_blank_filtering.2.2.1 [("a")] ("a") (by decide),
    C6_embed_blank_filtering.2.2.2.2 (fun _ => []) 2 [(""), ("x")] 0 ("")
      (by decide) (by decide)⟩

theorem map_replace_of_any_false (i : String) (nd : StoredDoc) :
    ∀ l : List StoredDoc, l.any (fun d => d.id == i) = false →
      l.map (fun d => if d.id == i then nd else d) = l := by
  intro l
  induction l with
  | nil => intro _; rfl
  | cons d rest ih =>
    intro h
    simp only [List.any_cons, Bool.or_eq_false_iff] at h
    rw [List.map_cons, if_neg (by simp [h.1]), ih h.2]

theorem find?_map_replace (i : String) (nd : StoredDoc) (hnd : nd.id = i) :
    ∀ l : List StoredDoc, l.any (fun d => d.id == i) = true →
      (l.map (fun d => if d.id == i then nd else d)).find?
        (fun d => d.id == i) = some nd := by
  intro l
  induction l with
  | nil => intro h; simp at h
  | cons d rest ih =>
    intro h
    rw [List.map_cons]
    by_cases hd : d.id = i
    · rw [if_pos (by simp [hd])]
      exact List.find?_cons_of_pos _ (by simp [hnd])
    · rw [if_neg (by simp [hd])]
      rw [List.find?_cons_of_neg _ (by simp [hd])]
      apply ih
      simpa [List.any_cons, hd] using h

theorem find?_append_of_any_false (p : StoredDoc → Bool) :
    ∀ (l1 l2 : List StoredDoc), l1.any p = false →
      (l1 ++ l2).find? p = l2.find? p := by
  intro l1
  induction l1 with
  | nil => intro l2 _; rfl
  | cons d rest ih =>
    intro l2 h
    simp only [List.any_cons, Bool.or_eq_false_iff] at h
    rw [List.cons_append, List.find?_cons_of_neg _ (by simp [h.1]), ih l2 h.2]

theorem upsertInto_get_self (c : Collection) (i : String) (v : List Rat)
    (t : String) (m : List (String × String)) :
    (upsertInto c i v t m).get i = some ⟨i, v, t, m⟩ := by
  by_cases hex : c.existsId i
  · rw [upsertInto, if_pos hex, Collection.get]
    rw [Collection.existsId] at hex
    exact find?_map_replace i _ rfl c.docs hex
  · rw [upsertInto, if_neg hex, Collection.get]
    rw [Collection.existsId] at hex
    rw [find?_append_of_any_false _ c.docs _ (by simpa using hex)]
    simp [List.find?_cons_of_pos]

theorem upsert_get_self (c : Collection) (i : String) (v : List Rat)
    (t : String) (m : List (String × String)) :
    (c.upsert i v t m).get i = some ⟨i, v, t, m⟩ :=
  upsertInto_get_self _ i v t m

theorem upsertInto_dim (c : Collection) (i : String) (v : List Rat)
    (t : String) (m : List (String × String)) :
    (upsertInto c i v t m).dim = c.dim := by
  by_cases hex : c.existsId i
  · rw [upsertInto, if_pos hex]
  · rw [upsertInto, if_neg hex]

theorem upsert_dim_eq (c : Collection) (i : String) (v : List Rat)
    (t : String) (m : List (String × String)) (h : v.length = c.dim) :
    (c.upsert i v t m).dim = c.dim := by
  rw [Collection.upsert, if_pos h, upsertInto_dim]

theorem upsert_docs_ne (c : Collection) (i : String) (v : List Rat)
    (t : String) (m : List (String × String)) (h : v.length ≠ c.dim) :
    (c.upsert i v t m).docs = [⟨i, v, t, m⟩] := by
  rw [Collection.upsert, if_neg h, upsertInto]
  rw [if_neg (by simp [Collection.existsId])]
  rfl

theorem upsert_dim_ne (c : Collection) (i : String) (v : List Rat)
    (t : String) (m : List (String × String)) (h : v.length ≠ c.dim) :
    (c.upsert i v t m).dim = v.length := by
  rw [Collection.upsert, if_neg h, upsertInto_dim]

theorem any_map_replace (i x : String) (nd : StoredDoc) (hnd : nd.id = i) :
    ∀ l : List StoredDoc,
      (l.map (fun d => if d.id == i then nd else d)).any
        (fun d => d.id == x) = l.any (fun d => d.id == x) := by
  intro l
  induction l with
  | nil => rfl
  | cons d rest ih =>
    rw [List.map_cons, List.any_cons, List.any_cons, ih]
    by_cases hd : d.id = i
    · rw [if_pos (by simp [hd]), hnd, hd]
    · rw [if_neg (by simp [hd])]

theorem upsertInto_existsId (c : Collection) (i : String) (v : List Rat)
    (t : String) (m : List (String × String)) (x : String) :
    (upsertInto c i v t m).existsId x = ((x == i) || c.existsId x) := by
  by_cases hex : c.existsId i
  · rw [upsertInto, if_pos hex]
    show (c.docs.map _).any _ = _
    rw [any_map_replace i x _ rfl c.docs]
    by_cases hx : x = i
    · subst hx
      rw [Collection.existsId] at hex ⊢
      simp [hex]
    · simp [hx, Collection.existsId]
  · rw [upsertInto, if_neg hex]
    show (c.docs ++ _).any _ = _
    rw [List.any_append]
    by_cases hx : x = i
    · subst hx
      simp [Collection.existsId]
    · have h1 : (i == x) = false := by
        rw [beq_eq_false_iff_ne]
        exact Ne.symm hx
      have h2 : (x == i) = false := by
        rw [beq_eq_false_iff_ne]
        exact hx
      have h3 : (([⟨i, v, t, m⟩] : List StoredDoc).any fun d => d.id == x)
          = (i == x) := by simp
      rw [h3, h1, h2, Bool.or_false, Bool.false_or, Collection.existsId]

theorem upsert_existsId (c : Collection) (i : String) (v : List Rat)
    (t : String) (m : List (String × String)) (h : v.length = c.dim)
    (x : String) :
    (c.upsert i v t m).existsId x = ((x == i) || c.existsId x) := by
  rw [Collection.upsert, if_pos h, upsertInto_existsId]

theorem existsId_upsert_self (c : Collection) (i : String) (v : List Rat)
    (t : String) (m : List (String × String)) :
    (c.upsert i v t m).existsId i = true := by
  have h := upsert_get_self c i v t m
  rw [Collection.get] at h
  rw [Collection.existsId, List.any_eq_true]
  exact ⟨⟨i, v, t, m⟩, List.mem_of_find?_eq_some h, by simp⟩

theorem upsert_length_le (c : Collection) (i : String) (v : List Rat)
    (t : String) (m : List (String × String)) (hex : c.existsId i = true) :
    (c.upsert i v t m).docs.length ≤ c.docs.length := by
  have hpos : 0 < c.docs.length := by
    rw [Collection.existsId, List.any_eq_true] at hex
    obtain ⟨x, hx, _⟩ := hex
    exact List.length_pos_of_mem hx
  by_cases hdim : v.length = c.dim
  · rw [Collection.upsert, if_pos hdim, upsertInto, if_pos hex]
    simp
  · rw [upsert_docs_ne c i v t m hdim]
    simpa using hpos

theorem ids_map_replace (i : String) (nd : StoredDoc) (hnd : nd.id = i) :
    ∀ l : List StoredDoc,
      (l.map (fun d => if d.id == i then nd else d)).map (fun d => d.id) =
        l.map (fun d => d.id) := by
  intro l
  induction l with
  | nil => rfl
  | cons d rest ih =>
    rw [List.map_cons, List.map_cons, List.map_cons, ih]
    by_cases hd : d.id = i
    · rw [if_pos (by simp [hd]), hnd, hd]
    · rw [if_neg (by simp [hd])]

theorem upsert_ids_nodup (c : Collection) (i : String) (v : List Rat)
    (t : String) (m : List (String × String))
    (h : (c.docs.map (fun d => d.id)).Nodup) :
    (((c.upsert i v t m).docs.map (fun d => d.id))).Nodup := by
  by_cases hdim : v.length = c.dim
  · rw [Collection.upsert, if_pos hdim]
    by_cases hex : c.existsId i
    · rw [upsertInto, if_pos hex]
      show ((c.docs.map _).map _).Nodup
      rw [ids_map_replace i _ rfl c.docs]
      exact h
    · rw [upsertInto, if_neg hex]
      show ((c.docs ++ _).map _).Nodup
      rw [List.map_append]
      refine List.Nodup.append h (List.nodup_singleton i) ?_
      intro a ha hb
      simp only [List.map_singleton, List.mem_singleton] at hb
      subst hb
      rw [Collection.existsId] at hex
      rw [List.mem_map] at ha
      obtain ⟨d, hd, hdi⟩ := ha
      exact hex (List.any_eq_true.mpr ⟨d, hd, by simp [hdi]⟩)
  · rw [upsert_docs_ne c i v t m hdim]
    simp

theorem filter_map_replace_length (i : String) (nd : StoredDoc)
    (hnd : nd.id = i) :
    ∀ l : List StoredDoc, (l.map (fun d => d.id)).Nodup →
      l.any (fun d => d.id == i) = true →
      ((l.map (fun d => if d.id == i then nd else d)).filter
        (fun d => d.id == i)).length = 1 := by
  intro l
  induction l with
  | nil => intro _ h; simp at h
  | cons d rest ih =>
    intro hnodup hany
    rw [List.map_cons] at hnodup ⊢
    rw [List.nodup_cons] at hnodup
    by_cases hd : d.id = i
    · rw [if_pos (by simp [hd])]
      have hrest : rest.any (fun d => d.id == i) = false := by
        rw [List.any_eq_false]
        intro e he hei
        apply hnodup.1
        rw [List.mem_map]
        rw [beq_iff_eq] at hei
        exact ⟨e, he, by rw [hei, hd]⟩
      rw [map_replace_of_any_false i nd rest hrest]
      rw [List.filter_cons_of_pos (by simp [hnd])]
      rw [List.filter_eq_nil_iff.mpr (by
        intro e he hei
        rw [beq_iff_eq] at hei
        rw [List.any_eq_false] at hrest
        exact hrest e he (by simp [hei]))]
      rfl
    · rw [if_neg (by simp [hd])]
      rw [List.filter_cons_of_neg (by simp [hd])]
      refine ih hnodup.2 ?_
      simpa [List.any_cons, hd] using hany

theorem upsert_filter_self_length (c : Collection) (i : String)
    (v : List Rat) (t : String) (m : List (String × String))
    (h : (c.docs.map (fun d => d.id)).Nodup) :
    (((c.upsert i v t m).docs).filter (fun d => d.id == i)).length = 1 := by
  by_cases hdim : v.length = c.dim
  · rw [Collection.upsert, if_pos hdim]
    by_cases hex : c.existsId i
    · rw [upsertInto, if_pos hex]
      rw [Collection.existsId] at hex
      exact filter_map_replace_length i _ rfl c.docs h hex
    · rw [upsertInto, if_neg hex]
      rw [Collection.existsId] at hex
      rw [Bool.not_eq_true] at hex
      rw [List.any_eq_false] at hex
      show ((c.docs ++ _).filter _).length = 1
      rw [List.filter_append]
      rw [List.filter_eq_nil_iff.mpr (fun e he hei => hex e he hei)]
      simp
  · rw [upsert_docs_ne c i v t m hdim]
    simp

/-- C4: an upsert whose vector length differs from the recorded dimension
recreates the collection: the new dimension becomes the collection
dimension, the only stored document is the newly written one, and every
result of every subsequent query stems from documents written after the
recreation. -/
theorem C4_dimension_mismatch_recreate (c : Collection) (i : String)
    (v : List Rat) (t : String) (m : List (String × String))
    (h : v.length ≠ c.dim) :
    (c.upsert i v t m).dim = v.length ∧
    (c.upsert i v t m).docs = [⟨i, v, t, m⟩] ∧
    (∀ (qv : List Rat) (k : Nat) (r : SearchResult),
      r ∈ (c.upsert i v t m).query qv k → r.text = t ∧ r.metadata = m) := by
  have hdocs := upsert_docs_ne c i v t m h
  refine ⟨upsert_dim_ne c i v t m h, hdocs, ?_⟩
  intro qv k r hr
  rw [Collection.query, hdocs] at hr
  have hr2 := List.take_subset k _ hr
  rw [List.mem_insertionSort] at hr2
  simp only [List.map_cons, List.map_nil, List.mem_singleton] at hr2
  subst hr2
  exact ⟨rfl, rfl⟩

theorem C4_dimension_mismatch_recreate_witness :
    ((Collection.mk 1 [⟨("old"), [0], ("o"), []⟩]).upsert ("n") [0, 0]
      ("t") []).dim = 2 ∧
    ((Collection.mk 1 [⟨("old"), [0], ("o"), []⟩]).upsert ("n") [0, 0]
      ("t") []).docs = [⟨("n"), [0, 0], ("t"), []⟩] ∧
    (SearchResult.mk ("t") [] (dist2 [0, 0] [0, 0])).text = ("t") := by
  obtain ⟨h1, h2, h3⟩ := C4_dimension_mismatch_recreate
    (Collection.mk 1 [⟨("old"), [0], ("o"), []⟩]) ("n") [0, 0] ("t") []
    (by decide)
  refine ⟨h1, h2, (h3 [0, 0] 5 _ ?_).1⟩
  rw [Collection.query, h2]
  simp [List.insertionSort, List.orderedInsert]

/-- C5: upserting the same id twice with different texts leaves the
latest document retrievable under that id, never increases the document
count on the second write, and, for a store with no duplicate ids,
leaves exactly one stored document with that id. -/
theorem C5_upsert_overwrites (c : Collection) (i : String)
    (v1 : List Rat) (t1 : String) (m1 : List (String × String))
    (v2 : List Rat) (t2 : String) (m2 : List (String × String)) :
    ((c.upsert i v1 t1 m1).upsert i v2 t2 m2).get i = some ⟨i, v2, t2, m2⟩ ∧
    ((c.upsert i v1 t1 m1).upsert i v2 t2 m2).stats.document_count ≤
      (c.upsert i v1 t1 m1).stats.document_count ∧
    ((c.docs.map (fun d => d.id)).Nodup →
      (((c.upsert i v1 t1 m1).upsert i v2 t2 m2).docs.filter
        (fun d => d.id == i)).length = 1) := by
  refine ⟨upsert_get_self _ i v2 t2 m2, ?_, ?_⟩
  · have hex := existsId_upsert_self c i v1 t1 m1
    simpa [Collection.stats] using
      upsert_length_le (c.upsert i v1 t1 m1) i v2 t2 m2 hex
  · intro h
    exact upsert_filter_self_length _ i v2 t2 m2
      (upsert_ids_nodup c i v1 t1 m1 h)

theorem C5_upsert_overwrites_witness :
    (((Collection.mk 1 []).upsert ("a") [0] ("x") []).upsert ("a") [0]
      ("y") []).get ("a") = some ⟨("a"), [0], ("y"), []⟩ ∧
    ((((Collection.mk 1 []).upsert ("a") [0] ("x") []).upsert ("a") [0]
      ("y") []).docs.filter (fun d => d.id == ("a"))).length = 1 :=
  ⟨(C5_upsert_overwrites (Collection.mk 1 []) ("a") [0] ("x") [] [0]
      ("y") []).1,
    (C5_upsert_overwrites (Collection.mk 1 []) ("a") [0] ("x") [] [0]
      ("y") []).2.2 (by simp)⟩

/-- C1: for every batch ingest with skip_duplicates set, a document whose
id already exists in the store is counted as skipped and its text is not
embedded, every valid new document is counted as imported and its text is
embedded, a malformed item is recorded as a per-item error without
aborting the batch, and the returned result carries these counts.  The
hypotheses: the embedder produces vectors of the collection dimension,
the batch has no duplicate ids, and each valid text chunks to itself. -/
theorem C1_batch_ingest_skip_duplicates (embedder : String → List Rat)
    (maxChars overlap : Nat) :
    ∀ (docs : List IngestDoc) (c : Collection),
      (∀ s, (embedder s).length = c.dim) →
      ((docs.map (fun d => d.id)).Nodup) →
      (∀ d ∈ docs, docValid d = true →
        chunk d.text maxChars overlap = [d.text]) →
      ((batch_ingest embedder maxChars overlap c docs true).2.skipped =
        (docs.filter (fun d => c.existsId d.id)).length ∧
       (batch_ingest embedder maxChars overlap c docs true).2.imported =
        (docs.filter (fun d => !(c.existsId d.id) && docValid d)).length ∧
       (batch_ingest embedder maxChars overlap c docs true).2.errors.length =
        (docs.filter (fun d => !(c.existsId d.id) && !(docValid d))).length ∧
       (batch_ingest embedder maxChars overlap c docs true).2.embedded =
        (docs.filter (fun d => !(c.existsId d.id) && docValid d)).map
          (fun d => d.text)) := by
  intro docs
  induction docs with
  | nil =>
    intro c _ _ _
    simp [batch_ingest]
  | cons d rest ih =>
    intro c hdim hnodup hch
    rw [List.map_cons, List.nodup_cons] at hnodup
    cases hex : c.existsId d.id with
    | true =>
      obtain ⟨h1, h2, h3, h4⟩ := ih c hdim hnodup.2
        (fun e he hv => hch e (List.mem_cons_of_mem d he) hv)
      refine ⟨?_, ?_, ?_, ?_⟩ <;>
        simp [batch_ingest, hex, List.filter_cons, h1, h2, h3, h4]
    | false =>
      cases hval : docValid d with
      | true =>
        have hchunk := hch d (List.mem_cons_self d rest) hval
        have hvlen : (embedder d.text).length = c.dim := hdim d.text
        have hing : ingestDoc embedder maxChars overlap c d =
            c.upsert d.id (embedder d.text) d.text d.metadata := by
          unfold ingestDoc
          rw [hchunk]
        have hdim2 : ∀ s, (embedder s).length =
            (c.upsert d.id (embedder d.text) d.text d.metadata).dim := by
          intro s
          rw [upsert_dim_eq c d.id (embedder d.text) d.text d.metadata hvlen]
          exact hdim s
        have hagree : ∀ e ∈ rest,
            (c.upsert d.id (embedder d.text) d.text d.metadata).existsId e.id
              = c.existsId e.id := by
          intro e he
          rw [upsert_existsId c d.id (embedder d.text) d.text d.metadata
            hvlen e.id]
          have hne : e.id ≠ d.id := by
            intro hcontra
            exact hnodup.1 (by rw [List.mem_map]; exact ⟨e, he, hcontra⟩)
          have hb : (e.id == d.id) = false := by
            rw [beq_eq_false_iff_ne]
            exact hne
          rw [hb, Bool.false_or]
        obtain ⟨h1, h2, h3, h4⟩ := ih
          (c.upsert d.id (embedder d.text) d.text d.metadata) hdim2 hnodup.2
          (fun e he hv => hch e (List.mem_cons_of_mem d he) hv)
        rw [List.filter_congr (fun e he => by simp only [hagree e he] :
          ∀ e ∈ rest, (fun e => (c.upsert d.id (embedder d.text) d.text
            d.metadata).existsId e.id) e = (fun e => c.existsId e.id) e)]
          at h1
        rw [List.filter_congr (fun e he => by simp only [hagree e he] :
          ∀ e ∈ rest, (fun e => !((c.upsert d.id (embedder d.text) d.text
            d.metadata).existsId e.id) && docValid e) e =
            (fun e => !(c.existsId e.id) && docValid e) e)] at h2 h4
        rw [List.filter_congr (fun e he => by simp only [hagree e he] :
          ∀ e ∈ rest, (fun e => !((c.upsert d.id (embedder d.text) d.text
            d.metadata).existsId e.id) && !(docValid e)) e =
            (fun e => !(c.existsId e.id) && !(docValid e)) e)] at h3
        refine ⟨?_, ?_, ?_, ?_⟩ <;>
          simp [batch_ingest, hex, hval, hing, hchunk, List.filter_cons,
            h1, h2, h3, h4]
      | false =>
        obtain ⟨h1, h2, h3, h4⟩ := ih c hdim hnodup.2
          (fun e he hv => hch e (List.mem_cons_of_mem d he) hv)
        refine ⟨?_, ?_, ?_, ?_⟩ <;>
          simp [batch_ingest, hex, hval, List.filter_cons, h1, h2, h3, h4]

theorem C1_batch_ingest_skip_duplicates_witness :
    (batch_ingest (fun _ => [0]) 100 10
      (Collection.mk 1 [⟨("e1"), [0], ("old one"), []⟩,
        ⟨("e2"), [0], ("old two"), []⟩])
      [⟨("n1"), ("new one"), []⟩, ⟨("e1"), ("dup one"), []⟩,
        ⟨("n2"), ("new two"), []⟩, ⟨("e2"), ("dup two"), []⟩,
        ⟨("n3"), ("new three"), []⟩] true).2.imported = 3 ∧
    (batch_ingest (fun _ => [0]) 100 10
      (Collection.mk 1 [⟨("e1"), [0], ("old one"), []⟩,
        ⟨("e2"), [0], ("old two"), []⟩])
      [⟨("n1"), ("new one"), []⟩, ⟨("e1"), ("dup one"), []⟩,
        ⟨("n2"), ("new two"), []⟩, ⟨("e2"), ("dup two"), []⟩,
        ⟨("n3"), ("new three"), []⟩] true).2.skipped = 2 ∧
    (batch_ingest (fun _ => [0]) 100 10 (Collection.mk 1 [])
      [⟨("g1"), ("good"), []⟩, ⟨(""), ("bad"), []⟩,
        ⟨("g2"), ("also good"), []⟩] true).2.imported = 2 ∧
    (batch_ingest (fun _ => [0]) 100 10 (Collection.mk 1 [])
      [⟨("g1"), ("good"), []⟩, ⟨(""), ("bad"), []⟩,
        ⟨("g2"), ("also good"), []⟩] true).2.errors.length = 1 := by
  obtain ⟨hs, hi, he, hm⟩ := C1_batch_ingest_skip_duplicates
    (fun _ => [0]) 100 10
    [⟨("n1"), ("new one"), []⟩, ⟨("e1"), ("dup one"), []⟩,
      ⟨("n2"), ("new two"), []⟩, ⟨("e2"), ("dup two"), []⟩,
      ⟨("n3"), ("new three"), []⟩]
    (Collection.mk 1 [⟨("e1"), [0], ("old one"), []⟩,
      ⟨("e2"), [0], ("old two"), []⟩])
    (fun _ => rfl) (by decide) (by decide)
  obtain ⟨hs2, hi2, he2, hm2⟩ := C1_batch_ingest_skip_duplicates
    (fun _ => [0]) 100 10
    [⟨("g1"), ("good"), []⟩, ⟨(""), ("bad"), []⟩,
      ⟨("g2"), ("also good"), []⟩]
    (Collection.mk 1 []) (fun _ => rfl) (by decide) (by decide)
  refine ⟨?_, ?_, ?_, ?_⟩
  · rw [hi]; decide
  · rw [hs]; decide
  · rw [hi2]; decide
  · rw [he2]; decide

end SchoolAgent
